import Mathlib

/-!
Verification of `icon-composer/build_svg.py`.

The script is a single straight-line pipeline: it reads two SVG source
files, strips the outer `<svg>` wrapper of each file with two textual
regular-expression substitutions, extracts an optional `viewBox`
attribute, computes integer placement geometry from the requested canvas
size, badge size, optional badge offset and a floating-point scale
factor, writes one combined SVG document to the destination path, and
optionally shells out to Inkscape for a PNG export.

Modelling choices, each justified against the source:
* File texts are `String` (lists of characters); the filesystem is an
  immutable map `String → Option String` (the process is single-threaded
  and nothing mutates the inputs during a run, spec section 5).
* The `--main-scale` float is modelled as a rational number; Python
  `int(x)` on a real value truncates toward zero, which `pyInt` states
  directly.  All inputs exercised here are exactly representable, so
  rational arithmetic agrees with the float arithmetic of the script.
* The two `re.sub` calls and the `re.search` call are embedded as
  explicit left-to-right scanners with exactly the semantics of the
  patterns `(?is)<svg[^>]*>`, `(?is)</svg>` and
  `viewBox=["...]([^"...]+)["...]` on the raw text.
* `sys.exit` / an uncaught `IOError` / normal completion are the
  constructors of `Outcome`; the composed document is carried inside the
  outcome so that "the output file was already written" is expressible.
-/

namespace BuildSvg

/-- Python `int()` applied to a real value truncates toward zero:
floor for nonnegative arguments, ceiling for negative ones. -/
def pyInt (q : ℚ) : ℤ := if q < 0 then ⌈q⌉ else ⌊q⌋

/-- Python `str()` of an integer, as used by the f-string templates. -/
def itoa (n : ℤ) : String := toString n

/-- The characters stripped by Python `str.strip()` (ASCII whitespace;
the exotic Unicode whitespace code points never occur in the inputs
considered here). -/
def pyIsSpace (c : Char) : Bool :=
  c == ' ' || c == '\t' || c == '\n' || c == '\r' || c == '\x0b' || c == '\x0c'

/-- Python `str.strip()`: drop leading and trailing whitespace. -/
def pyStrip (l : List Char) : List Char :=
  ((l.dropWhile pyIsSpace).reverse.dropWhile pyIsSpace).reverse

/-- Head test for the regex `(?is)<svg[^>]*>` of `extract_inner`: the
text starts with `<svg` (any letter case) and a `>` occurs later, so the
greedy `[^>]*>` can finish the match at the first such `>`. -/
def openMatchHead : List Char → Bool
  | c :: a :: b :: d :: r2 =>
    c == '<' && (a == 's' || a == 'S') && (b == 'v' || b == 'V') && (d == 'g' || d == 'G')
      && r2.contains '>'
  | _ => false

/-- Left-to-right scan of the first substitution of `extract_inner`,
deleting every match of `(?is)<svg[^>]*>` from the text: in
normal mode (`false`) a position either starts a match — the tag is
dropped and the scan resumes in skip mode, deleting up to and including
the first `>` — or its character is kept and the scan moves one
character right. -/
def scanO : List Char → Bool → List Char
  | [], _ => []
  | c :: r, true => if c == '>' then scanO r false else scanO r true
  | c :: a :: b :: d :: r2, false =>
    if openMatchHead (c :: a :: b :: d :: r2) then scanO r2 true
    else c :: scanO (a :: b :: d :: r2) false
  | c :: r, false => c :: scanO r false

/-- Head test for the regex `(?is)</svg>` of `extract_inner`: the text
starts with the six-character closing tag, letters in any case. -/
def closeMatchHead : List Char → Bool
  | c :: e :: a :: b :: d :: f :: _ =>
    c == '<' && e == '/' && (a == 's' || a == 'S') && (b == 'v' || b == 'V')
      && (d == 'g' || d == 'G') && f == '>'
  | _ => false

/-- Left-to-right scan of the second substitution of `extract_inner`,
deleting every match of `(?is)</svg>` from the text. -/
def scanC : List Char → List Char
  | [] => []
  | c :: e :: a :: b :: d :: f :: r2 =>
    if closeMatchHead (c :: e :: a :: b :: d :: f :: r2) then scanC r2
    else c :: scanC (e :: a :: b :: d :: f :: r2)
  | c :: r => c :: scanC r

/-- `extract_inner` of `build_svg.py`, pure part: delete every match of
`(?is)<svg[^>]*>`, then every match of `(?is)</svg>`, then strip
surrounding whitespace.  (The file-reading and `sys.exit` on a missing
file are modelled at the `mainRun` level.) -/
def extract_inner (text : String) : String :=
  ⟨pyStrip (scanC (scanO text.toList false))⟩

/-- The single-quote character, written via its code point. -/
def squote : Char := Char.ofNat 39

/-- A quote character (double or single) as the quote class of the
`get_viewbox` pattern accepts. -/
def quoteChar (c : Char) : Bool := c == '"' || c == squote

/-- After an opening quote, the capture group (one or more non-quote
characters, greedy, followed by a closing quote) takes the maximal
nonempty run of non-quote characters, and requires the next character
to exist (it is then necessarily a quote). -/
def takeVal (l : List Char) : Option (List Char) :=
  let v := l.takeWhile (fun c => !quoteChar c)
  let r := l.dropWhile (fun c => !quoteChar c)
  if v.isEmpty then none else if r.isEmpty then none else some v

/-- Head test and capture for the `viewBox` search pattern: the text
must start with the case-sensitive literal `viewBox=`, then a quote,
then the captured value (nonempty, quote-free, quote-terminated). -/
def vbAt : List Char → Option (List Char)
  | 'v' :: 'i' :: 'e' :: 'w' :: 'B' :: 'o' :: 'x' :: '=' :: q :: r =>
    if quoteChar q then takeVal r else none
  | _ => none

/-- `re.search`: the match at the leftmost position where the whole
pattern succeeds, scanning left to right. -/
def findVb : List Char → Option (List Char)
  | [] => none
  | c :: r =>
    match vbAt (c :: r) with
    | some v => some v
    | none => findVb r

/-- `get_viewbox` of `build_svg.py`, pure part: the first captured
`viewBox` value of the raw text, or absent. -/
def get_viewbox (text : String) : Option String :=
  (findVb text.toList).map fun l => (⟨l⟩ : String)

/-- `main_w = int(base_w * scale)` (and likewise `main_h`): the scaled
main-icon dimension, Python float-to-int truncation. -/
def main_w_calc (w : ℤ) (s : ℚ) : ℤ := pyInt ((w : ℚ) * s)

/-- `main_x = (base_w - main_w) // 2` (and likewise `main_y`): Python
floor division, i.e. `Int.fdiv`. -/
def main_x_calc (w : ℤ) (s : ℚ) : ℤ := (w - main_w_calc w s).fdiv 2

/-- The badge placement: the explicit `--badge-offset` verbatim when
given, otherwise bottom-right alignment
`(base_w - badge_w, base_h - badge_h)`. -/
def badge_pos_calc (base_w base_h badge_w badge_h : ℤ)
    (off : Option (ℤ × ℤ)) : ℤ × ℤ :=
  match off with
  | some p => p
  | none => (base_w - badge_w, base_h - badge_h)

/-- The parsed command-line arguments after `argparse` has applied
defaults (`main_size` defaults to `(24, 24)`, `badge_size` to `(6, 6)`,
`main_scale` to `1.0`, `badge_offset` to absent). -/
structure Args where
  base : String
  badge : String
  output : String
  main_size : ℤ × ℤ
  badge_size : ℤ × ℤ
  badge_offset : Option (ℤ × ℤ)
  main_scale : ℚ
  export_png : Bool

/-- The synthesized default written when a source file has no `viewBox`:
`f"0 0 {w} {h}"`. -/
def defaultVb (w h : ℤ) : String := "0 0 " ++ itoa w ++ " " ++ itoa h

/-- The `viewBox` used for the base symbol:
`get_viewbox(args.base) or f"0 0 {main_w} {main_h}"`.  Note the default
uses the scaled size `main_w`/`main_h`.  (A matched `viewBox` value is
never the empty string, so Python `or` is exactly `Option.getD`.) -/
def base_vb_used (a : Args) (text : String) : String :=
  (get_viewbox text).getD
    (defaultVb (main_w_calc a.main_size.1 a.main_scale)
      (main_w_calc a.main_size.2 a.main_scale))

/-- The `viewBox` used for the badge symbol:
`get_viewbox(args.badge) or f"0 0 {badge_w} {badge_h}"`. -/
def badge_vb_used (a : Args) (text : String) : String :=
  (get_viewbox text).getD (defaultVb a.badge_size.1 a.badge_size.2)

/-- The exact text written to `args.output`, mirroring the eight
`out.write` calls of `main` (including the alignment spaces). -/
def composeDoc (base_w base_h main_x main_y main_w main_h
    badge_x badge_y badge_w badge_h : ℤ)
    (base_vb badge_vb base_inner badge_inner : String) : String :=
  "<svg xmlns=\"http://www.w3.org/2000/svg\" width=\"" ++ itoa base_w
      ++ "\" height=\"" ++ itoa base_h ++ "\">\n"
    ++ "  <defs>\n"
    ++ "    <symbol id=\"matrix\"  viewBox=\"" ++ base_vb ++ "\">\n"
      ++ base_inner ++ "\n    </symbol>\n"
    ++ "    <symbol id=\"telegram\" viewBox=\"" ++ badge_vb ++ "\">\n"
      ++ badge_inner ++ "\n    </symbol>\n"
    ++ "  </defs>\n"
    ++ "  <use href=\"#matrix\"   x=\"" ++ itoa main_x ++ "\" y=\"" ++ itoa main_y
      ++ "\" width=\"" ++ itoa main_w ++ "\" height=\"" ++ itoa main_h ++ "\"/>\n"
    ++ "  <use href=\"#telegram\" x=\"" ++ itoa badge_x ++ "\" y=\"" ++ itoa badge_y
      ++ "\" width=\"" ++ itoa badge_w ++ "\" height=\"" ++ itoa badge_h ++ "\"/>\n"
    ++ "</svg>\n"

/-- The combined document produced for a given invocation, with the two
raw source texts given: geometry from section 4.3 of the spec, viewBox
resolution, inner-content extraction, template substitution. -/
def docOf (a : Args) (baseText badgeText : String) : String :=
  composeDoc a.main_size.1 a.main_size.2
    (main_x_calc a.main_size.1 a.main_scale) (main_x_calc a.main_size.2 a.main_scale)
    (main_w_calc a.main_size.1 a.main_scale) (main_w_calc a.main_size.2 a.main_scale)
    (badge_pos_calc a.main_size.1 a.main_size.2 a.badge_size.1 a.badge_size.2
      a.badge_offset).1
    (badge_pos_calc a.main_size.1 a.main_size.2 a.badge_size.1 a.badge_size.2
      a.badge_offset).2
    a.badge_size.1 a.badge_size.2
    (base_vb_used a baseText) (badge_vb_used a badgeText)
    (extract_inner baseText) (extract_inner badgeText)

/-- How one whole run of the process ends.  The composed document is
carried inside the outcome when the write to `args.output` has already
happened by the time the process stops. -/
inductive Outcome where
  | exitMissing (path : String)
  | uncaughtRead (path : String)
  | exportFailed (doc : String)
  | finished (doc : String) (pngExported : Bool)
deriving DecidableEq

/-- The content of `args.output` on disk when the process stops, absent
when the process stopped before the write. -/
def Outcome.written : Outcome → Option String
  | exitMissing _ => none
  | uncaughtRead _ => none
  | exportFailed d => some d
  | finished d _ => some d

/-- Whether the process exit status is zero. -/
def Outcome.exitZero : Outcome → Bool
  | finished _ _ => true
  | _ => false

/-- The whole `main()` run over an immutable filesystem `fs`, in source
order: `extract_inner(args.base)` (guarded read, `sys.exit` on a missing
file), `extract_inner(args.badge)` (same), `get_viewbox(args.base)` and
`get_viewbox(args.badge)` (unguarded re-reads — a failure here would be
an uncaught exception), the write of the composed document, and, when
`--export-png` is set, the Inkscape subprocess whose success is the
oracle `inkscapeOk`; any subprocess failure is caught and turned into
`sys.exit(1)` after the write. -/
def mainRun (fs : String → Option String) (a : Args) (inkscapeOk : Bool) : Outcome :=
  match fs a.base with
  | none => Outcome.exitMissing a.base
  | some baseText =>
    match fs a.badge with
    | none => Outcome.exitMissing a.badge
    | some badgeText =>
      match fs a.base with
      | none => Outcome.uncaughtRead a.base
      | some baseText2 =>
        match fs a.badge with
        | none => Outcome.uncaughtRead a.badge
        | some badgeText2 =>
          let doc := composeDoc a.main_size.1 a.main_size.2
            (main_x_calc a.main_size.1 a.main_scale)
            (main_x_calc a.main_size.2 a.main_scale)
            (main_w_calc a.main_size.1 a.main_scale)
            (main_w_calc a.main_size.2 a.main_scale)
            (badge_pos_calc a.main_size.1 a.main_size.2 a.badge_size.1
              a.badge_size.2 a.badge_offset).1
            (badge_pos_calc a.main_size.1 a.main_size.2 a.badge_size.1
              a.badge_size.2 a.badge_offset).2
            a.badge_size.1 a.badge_size.2
            (base_vb_used a baseText2) (badge_vb_used a badgeText2)
            (extract_inner baseText) (extract_inner badgeText)
          if a.export_png then
            if inkscapeOk then Outcome.finished doc true
            else Outcome.exportFailed doc
          else Outcome.finished doc false

/-- Whether the run ended in the unreachable uncaught-exception state of
`get_viewbox` reading a vanished file. -/
def Outcome.isUncaught : Outcome → Bool
  | uncaughtRead _ => true
  | _ => false

/-- Truncation of an integer value is the integer itself. -/
theorem pyInt_intCast (n : ℤ) : pyInt ((n : ℤ) : ℚ) = n := by
  unfold pyInt
  split
  · exact Int.ceil_intCast n
  · exact Int.floor_intCast n

/-- Truncation agrees with `floor` on nonnegative arguments. -/
theorem pyInt_eq_floor {q : ℚ} (h : 0 ≤ q) : pyInt q = ⌊q⌋ := by
  unfold pyInt
  rw [if_neg (not_lt.mpr h)]

/-- Python `// 2` (floor division) seen as a `floor` over ℚ. -/
theorem fdiv_two_eq_floor (a : ℤ) : a.fdiv 2 = ⌊(a : ℚ) / 2⌋ := by
  rw [Int.fdiv_eq_ediv _ (by norm_num)]
  have h2 := Rat.floor_intCast_div_natCast a 2
  norm_num at h2
  exact h2.symm

/-- Evaluation helper: `main_w_calc` at inputs whose product is an
integer. -/
theorem main_w_eval (w n : ℤ) (s : ℚ) (h : (w : ℚ) * s = (n : ℚ)) :
    main_w_calc w s = n := by
  rw [main_w_calc, h, pyInt_intCast]

/-- `main_w` for a 400-wide canvas at scale 1/2 is 200. -/
theorem main_w_400_half : main_w_calc 400 (1/2) = 200 :=
  main_w_eval 400 200 (1/2) (by norm_num)

/-- `main_x` for a 400-wide canvas at scale 1/2 is 100. -/
theorem main_x_400_half : main_x_calc 400 (1/2) = 100 := by
  rw [main_x_calc, main_w_400_half]
  decide

/-- `main_w` for a 24-wide canvas at the default scale 1 is 24. -/
theorem main_w_24_one : main_w_calc 24 1 = 24 :=
  main_w_eval 24 24 1 (by norm_num)

/-- `main_x` for a 24-wide canvas at the default scale 1 is 0. -/
theorem main_x_24_one : main_x_calc 24 1 = 0 := by
  rw [main_x_calc, main_w_24_one]
  decide

/-- `main_w` for a 24-wide canvas at scale 3/2 is 36: oversized, not
clamped. -/
theorem main_w_24_threehalves : main_w_calc 24 (3/2) = 36 :=
  main_w_eval 24 36 (3/2) (by norm_num)

/-- Claim C3: with no explicit badge offset the badge placement is
bottom-right aligned, `x = canvasWidth - badgeWidth`,
`y = canvasHeight - badgeHeight`; in particular main-size (24,24) and
badge-size (6,6) give (18,18). -/
theorem claim3_theorem :
    (∀ base_w base_h badge_w badge_h : ℤ,
        badge_pos_calc base_w base_h badge_w badge_h none
          = (base_w - badge_w, base_h - badge_h)) ∧
    badge_pos_calc 24 24 6 6 none = (18, 18) :=
  ⟨fun _ _ _ _ => rfl, by decide⟩

/-- Claim C4: an explicitly supplied badge offset is used verbatim,
regardless of the badge-size and canvas-size values; in particular
offset (2,2) gives placement (2,2). -/
theorem claim4_theorem :
    (∀ base_w base_h badge_w badge_h x y : ℤ,
        badge_pos_calc base_w base_h badge_w badge_h (some (x, y)) = (x, y)) ∧
    badge_pos_calc 400 400 6 6 (some (2, 2)) = (2, 2) :=
  ⟨fun _ _ _ _ _ _ => rfl, by decide⟩

/-- Claim C9: the unguarded read inside `get_viewbox` can never fail in
a complete run: `extract_inner` (which exits the process on a missing
file) is invoked on each source path before `get_viewbox` is, so over
the immutable filesystem of a single-threaded run the
uncaught-exception outcome is unreachable. -/
theorem claim9_theorem :
    ∀ (fs : String → Option String) (a : Args) (ink : Bool),
      (mainRun fs a ink).isUncaught = false := by
  intro fs a ink
  unfold mainRun
  cases fs a.base with
  | none => rfl
  | some bt =>
    cases fs a.badge with
    | none => rfl
    | some dt => cases a.export_png <;> cases ink <;> rfl

/-- Claim C6: when the base source path does not exist the process
reports it and stops with a non-zero exit status before any output is
produced: the destination is never written. -/
theorem claim6_theorem (fs : String → Option String) (a : Args) (ink : Bool)
    (h : fs a.base = none) :
    mainRun fs a ink = Outcome.exitMissing a.base ∧
    (mainRun fs a ink).written = none ∧
    (mainRun fs a ink).exitZero = false := by
  have key : mainRun fs a ink = Outcome.exitMissing a.base := by
    unfold mainRun
    rw [h]
  exact ⟨key, by rw [key]; rfl, by rw [key]; rfl⟩

/-- Witness for C6 at a concrete invocation over an empty filesystem. -/
theorem claim6_witness :
    mainRun (fun _ => none)
        ⟨"matrix.svg", "telegram.svg", "combined.svg", (24, 24), (6, 6), none, 1, false⟩
        false
      = Outcome.exitMissing ("matrix.svg") ∧
    (mainRun (fun _ => none)
        ⟨"matrix.svg", "telegram.svg", "combined.svg", (24, 24), (6, 6), none, 1, false⟩
        false).written = none ∧
    (mainRun (fun _ => none)
        ⟨"matrix.svg", "telegram.svg", "combined.svg", (24, 24), (6, 6), none, 1, false⟩
        false).exitZero = false :=
  claim6_theorem _ _ _ rfl

/-- Claim C7: with `--export-png` set and a failing (or unlaunchable)
rasterizer subprocess, the run ends with a non-zero exit status, but
the composed document has already been written to the destination and
remains there. -/
theorem claim7_theorem (fs : String → Option String) (a : Args) (bt dt : String)
    (hpng : a.export_png = true) (hb : fs a.base = some bt) (hd : fs a.badge = some dt) :
    mainRun fs a false = Outcome.exportFailed (docOf a bt dt) ∧
    (mainRun fs a false).written = some (docOf a bt dt) ∧
    (mainRun fs a false).exitZero = false := by
  have key : mainRun fs a false = Outcome.exportFailed (docOf a bt dt) := by
    unfold mainRun
    rw [hb, hd, hpng]
    rfl
  exact ⟨key, by rw [key]; rfl, by rw [key]; rfl⟩

/-- Witness for C7: a concrete invocation with `--export-png` set and a
failing rasterizer. -/
theorem claim7_witness :
    mainRun
        (fun p => if p = "matrix.svg" then some ("<svg><a/></svg>")
          else if p = "telegram.svg" then some ("<svg><b/></svg>") else none)
        ⟨"matrix.svg", "telegram.svg", "combined.svg", (24, 24), (6, 6), none, 1, true⟩
        false
      = Outcome.exportFailed
          (docOf ⟨"matrix.svg", "telegram.svg", "combined.svg", (24, 24), (6, 6), none, 1, true⟩
            ("<svg><a/></svg>") ("<svg><b/></svg>")) ∧
    (mainRun
        (fun p => if p = "matrix.svg" then some ("<svg><a/></svg>")
          else if p = "telegram.svg" then some ("<svg><b/></svg>") else none)
        ⟨"matrix.svg", "telegram.svg", "combined.svg", (24, 24), (6, 6), none, 1, true⟩
        false).written
      = some (docOf ⟨"matrix.svg", "telegram.svg", "combined.svg", (24, 24), (6, 6), none, 1, true⟩
          ("<svg><a/></svg>") ("<svg><b/></svg>")) ∧
    (mainRun
        (fun p => if p = "matrix.svg" then some ("<svg><a/></svg>")
          else if p = "telegram.svg" then some ("<svg><b/></svg>") else none)
        ⟨"matrix.svg", "telegram.svg", "combined.svg", (24, 24), (6, 6), none, 1, true⟩
        false).exitZero = false :=
  claim7_theorem
    (fun p => if p = "matrix.svg" then some ("<svg><a/></svg>")
      else if p = "telegram.svg" then some ("<svg><b/></svg>") else none)
    ⟨"matrix.svg", "telegram.svg", "combined.svg", (24, 24), (6, 6), none, 1, true⟩
    ("<svg><a/></svg>") ("<svg><b/></svg>")
    rfl (by decide) (by decide)

/-- Counterexample to claim C2 as stated for every scale factor:
Python `int()` truncates toward zero, so at the (accepted) negative
scale -1/2 on a 3-wide canvas the code computes -1 while the claimed
`floor` formula gives -2. -/
theorem claim2_counterexample :
    main_w_calc 3 (-(1/2)) ≠ ⌊(3 : ℚ) * (-(1/2))⌋ ∧
    main_w_calc 3 (-(1/2)) = -1 ∧ ⌊(3 : ℚ) * (-(1/2))⌋ = -2 := by
  have hprod : ((3 : ℤ) : ℚ) * (-(1/2)) = -(3/2) := by push_cast; norm_num
  have hfloor : ⌊(3 : ℚ) * (-(1/2))⌋ = -2 := by
    rw [show (3 : ℚ) * (-(1/2)) = -(3/2) from by norm_num, Int.floor_eq_iff]
    constructor <;> push_cast <;> norm_num
  have hmw : main_w_calc 3 (-(1/2)) = -1 := by
    rw [main_w_calc, hprod]
    unfold pyInt
    rw [if_pos (by norm_num : (-(3/2) : ℚ) < 0), Int.ceil_eq_iff]
    constructor <;> push_cast <;> norm_num
  exact ⟨by rw [hmw, hfloor]; decide, hmw, hfloor⟩

/-- Claim C2, amended: the base placement uses Python `int()`
truncation, which agrees with the claimed `floor` formulas whenever the
canvas dimension and the scale factor are nonnegative (so in particular
for every scale > 1, with no bounds clamping); the centering offsets
are floor divisions unconditionally.  The (400,400) at scale 1/2
example holds: width 200, x 100; and scale 3/2 on a 24 canvas gives the
unclamped 36. -/
theorem claim2_theorem :
    (∀ (w : ℤ) (s : ℚ), 0 ≤ w → 0 ≤ s → main_w_calc w s = ⌊(w : ℚ) * s⌋) ∧
    (∀ (w : ℤ) (s : ℚ),
        main_x_calc w s = ⌊((w : ℚ) - ((main_w_calc w s : ℤ) : ℚ)) / 2⌋) ∧
    main_w_calc 400 (1/2) = 200 ∧ main_x_calc 400 (1/2) = 100 ∧
    main_w_calc 24 (3/2) = 36 := by
  refine ⟨?_, ?_, main_w_400_half, main_x_400_half, main_w_24_threehalves⟩
  · intro w s hw hs
    rw [main_w_calc, pyInt_eq_floor (mul_nonneg (by exact_mod_cast hw) hs)]
  · intro w s
    rw [main_x_calc, fdiv_two_eq_floor]
    congr 1
    push_cast
    ring

/-- Witness for C2 at the concrete example of the claim. -/
theorem claim2_witness :
    ((0 : ℤ) ≤ 400 ∧ (0 : ℚ) ≤ 1/2) ∧
    main_w_calc 400 (1/2) = ⌊((400 : ℤ) : ℚ) * (1/2)⌋ ∧
    main_x_calc 400 (1/2) = ⌊(((400 : ℤ) : ℚ) - ((main_w_calc 400 (1/2) : ℤ) : ℚ)) / 2⌋ :=
  ⟨⟨by norm_num, by norm_num⟩,
   claim2_theorem.1 400 (1/2) (by norm_num) (by norm_num),
   claim2_theorem.2.1 400 (1/2)⟩

/-- Counterexample to claim C1: for a base file with no `viewBox`, at
main-size (400,400) and main-scale 1/2 the synthesized default for the
base role is "0 0 200 200" (the scaled size), not the claimed
"0 0 400 400" (the requested main-size). -/
theorem claim1_counterexample :
    base_vb_used
        ⟨"matrix.svg", "telegram.svg", "combined.svg", (400, 400), (6, 6), none, 1/2, false⟩
        ("<svg><r/></svg>")
      = "0 0 200 200" ∧
    ("0 0 200 200" : String) ≠ "0 0 400 400" := by
  constructor
  · unfold base_vb_used
    rw [show get_viewbox ("<svg><r/></svg>") = none from by decide, Option.getD_none]
    show defaultVb (main_w_calc 400 (1/2)) (main_w_calc 400 (1/2)) = _
    rw [main_w_400_half]
    decide
  · decide

/-- Claim C1, amended: when a source file lacks a `viewBox`, the badge
symbol gets the synthesized default "0 0 badgeW badgeH" (the requested
badge-size), but the synthesized default of the base symbol is
"0 0 mainW mainH" with the scaled size `int(canvas * scale)` — it
depends on the main-scale factor and equals the requested main-size
only when the scaled size does. -/
theorem claim1_theorem (fs : String → Option String) (a : Args) (bt dt : String)
    (ink : Bool)
    (hb : fs a.base = some bt) (hd : fs a.badge = some dt)
    (hvb : get_viewbox bt = none) (hvd : get_viewbox dt = none) :
    (mainRun fs a ink).written = some (composeDoc a.main_size.1 a.main_size.2
      (main_x_calc a.main_size.1 a.main_scale) (main_x_calc a.main_size.2 a.main_scale)
      (main_w_calc a.main_size.1 a.main_scale) (main_w_calc a.main_size.2 a.main_scale)
      (badge_pos_calc a.main_size.1 a.main_size.2 a.badge_size.1 a.badge_size.2
        a.badge_offset).1
      (badge_pos_calc a.main_size.1 a.main_size.2 a.badge_size.1 a.badge_size.2
        a.badge_offset).2
      a.badge_size.1 a.badge_size.2
      (defaultVb (main_w_calc a.main_size.1 a.main_scale)
        (main_w_calc a.main_size.2 a.main_scale))
      (defaultVb a.badge_size.1 a.badge_size.2)
      (extract_inner bt) (extract_inner dt)) := by
  simp only [mainRun, hb, hd, base_vb_used, badge_vb_used, hvb, hvd, Option.getD_none]
  cases a.export_png <;> cases ink <;> rfl

/-- Witness for C1 at a concrete invocation: both sources lack a
`viewBox`, canvas (400,400), scale 1/2. -/
theorem claim1_witness :
    (mainRun
        (fun p => if p = "matrix.svg" then some ("<svg><r/></svg>")
          else if p = "telegram.svg" then some ("<svg><c/></svg>") else none)
        ⟨"matrix.svg", "telegram.svg", "combined.svg", (400, 400), (6, 6), none, 1/2, true⟩
        true).written
      = some (composeDoc 400 400 (main_x_calc 400 (1/2)) (main_x_calc 400 (1/2))
          (main_w_calc 400 (1/2)) (main_w_calc 400 (1/2)) 394 394 6 6
          (defaultVb (main_w_calc 400 (1/2)) (main_w_calc 400 (1/2)))
          (defaultVb 6 6) ("<r/>") ("<c/>")) :=
  claim1_theorem
    (fun p => if p = "matrix.svg" then some ("<svg><r/></svg>")
      else if p = "telegram.svg" then some ("<svg><c/></svg>") else none)
    ⟨"matrix.svg", "telegram.svg", "combined.svg", (400, 400), (6, 6), none, 1/2, true⟩
    ("<svg><r/></svg>") ("<svg><c/></svg>") true
    (by decide) (by decide) (by decide) (by decide)

/-- No position of `pre` (continued by `cont`) starts a match of the
open-tag pattern. -/
def noOpenIn : List Char → List Char → Bool
  | [], _ => true
  | c :: r, cont => !openMatchHead (c :: (r ++ cont)) && noOpenIn r cont

/-- No position of `pre` (continued by `cont`) starts a match of the
close-tag pattern. -/
def noCloseIn : List Char → List Char → Bool
  | [], _ => true
  | c :: r, cont => !closeMatchHead (c :: (r ++ cont)) && noCloseIn r cont

/-- A position that starts no open-tag match contributes its character
unchanged. -/
theorem scanO_step (c : Char) (l : List Char) (h : openMatchHead (c :: l) = false) :
    scanO (c :: l) false = c :: scanO l false := by
  rcases l with _ | ⟨a, _ | ⟨b, _ | ⟨d, r2⟩⟩⟩
  · rfl
  · rfl
  · rfl
  · simp [scanO, h]

/-- In skip mode the scan deletes up to and including the first `>`,
then resumes normally. -/
theorem scanO_skip (attrs rest : List Char) (h : '>' ∉ attrs) :
    scanO (attrs ++ '>' :: rest) true = scanO rest false := by
  induction attrs with
  | nil => simp [scanO]
  | cons c t ih =>
    have hc : (c == '>') = false := by
      simp only [beq_eq_false_iff_ne]
      intro hEq
      exact h (List.mem_cons.mpr (Or.inl hEq.symm))
    have ht : '>' ∉ t := fun m => h (List.mem_cons_of_mem c m)
    simp [scanO, hc, ih ht]

/-- A whole well-formed open tag `<svg…>` (letters in any case,
attributes without `>`) is consumed in one match. -/
theorem scanO_open (a b d : Char) (attrs rest : List Char)
    (ha : a = 's' ∨ a = 'S') (hb : b = 'v' ∨ b = 'V') (hd : d = 'g' ∨ d = 'G')
    (hattrs : '>' ∉ attrs) :
    scanO ('<' :: a :: b :: d :: (attrs ++ '>' :: rest)) false = scanO rest false := by
  have hgt : (attrs ++ '>' :: rest).contains '>' = true := by
    simp
  have hhead : openMatchHead ('<' :: a :: b :: d :: (attrs ++ '>' :: rest)) = true := by
    rcases ha with rfl | rfl <;> rcases hb with rfl | rfl <;> rcases hd with rfl | rfl <;>
      simp [openMatchHead, hgt]
  simp [scanO, hhead, scanO_skip attrs rest hattrs]

/-- The open-tag scan leaves a match-free prefix untouched. -/
theorem scanO_append (pre cont : List Char) (h : noOpenIn pre cont = true) :
    scanO (pre ++ cont) false = pre ++ scanO cont false := by
  induction pre with
  | nil => simp
  | cons c r ih =>
    simp only [noOpenIn, Bool.and_eq_true, Bool.not_eq_true'] at h
    rw [List.cons_append, scanO_step _ _ h.1, ih h.2, List.cons_append]

/-- The open-tag scan is the identity on match-free text. -/
theorem scanO_id (l : List Char) (h : noOpenIn l [] = true) : scanO l false = l := by
  have happ := scanO_append l [] h
  simpa [scanO] using happ

/-- A position that starts no close-tag match contributes its character
unchanged. -/
theorem scanC_step (c : Char) (l : List Char) (h : closeMatchHead (c :: l) = false) :
    scanC (c :: l) = c :: scanC l := by
  rcases l with _ | ⟨e, _ | ⟨a, _ | ⟨b, _ | ⟨d, _ | ⟨f, r2⟩⟩⟩⟩⟩
  · rfl
  · rfl
  · rfl
  · rfl
  · rfl
  · simp [scanC, h]

/-- A whole close tag `</svg>` (letters in any case) is consumed in one
match. -/
theorem scanC_close (a b d : Char) (rest : List Char)
    (ha : a = 's' ∨ a = 'S') (hb : b = 'v' ∨ b = 'V') (hd : d = 'g' ∨ d = 'G') :
    scanC ('<' :: '/' :: a :: b :: d :: '>' :: rest) = scanC rest := by
  have hhead : closeMatchHead ('<' :: '/' :: a :: b :: d :: '>' :: rest) = true := by
    rcases ha with rfl | rfl <;> rcases hb with rfl | rfl <;> rcases hd with rfl | rfl <;>
      simp [closeMatchHead]
  simp [scanC, hhead]

/-- The close-tag scan leaves a match-free prefix untouched. -/
theorem scanC_append (pre cont : List Char) (h : noCloseIn pre cont = true) :
    scanC (pre ++ cont) = pre ++ scanC cont := by
  induction pre with
  | nil => simp
  | cons c r ih =>
    simp only [noCloseIn, Bool.and_eq_true, Bool.not_eq_true'] at h
    rw [List.cons_append, scanC_step _ _ h.1, ih h.2, List.cons_append]

/-- The close-tag scan is the identity on match-free text. -/
theorem scanC_id (l : List Char) (h : noCloseIn l [] = true) : scanC l = l := by
  have happ := scanC_append l [] h
  simpa [scanC] using happ

/-- Claim C5: for a source text made of one outer wrapping `svg`
element (opening tag in any letter case with `>`-free attributes, one
matching closing tag in any letter case) around arbitrary inner markup
— with no other open-tag or close-tag pattern match anywhere — the
extraction returns exactly the original text with those two tags
removed and surrounding whitespace trimmed, byte-for-byte otherwise
unchanged. -/
theorem claim5_theorem
    (pre attrs inner post : List Char) (a b d a2 b2 d2 : Char)
    (ha : a = 's' ∨ a = 'S') (hb : b = 'v' ∨ b = 'V') (hd : d = 'g' ∨ d = 'G')
    (ha2 : a2 = 's' ∨ a2 = 'S') (hb2 : b2 = 'v' ∨ b2 = 'V') (hd2 : d2 = 'g' ∨ d2 = 'G')
    (hattrs : '>' ∉ attrs)
    (hpre : noOpenIn pre
      ('<' :: a :: b :: d :: (attrs ++ '>'
        :: (inner ++ ('<' :: '/' :: a2 :: b2 :: d2 :: '>' :: post)))) = true)
    (hrest : noOpenIn (inner ++ ('<' :: '/' :: a2 :: b2 :: d2 :: '>' :: post)) [] = true)
    (hclose1 : noCloseIn (pre ++ inner) ('<' :: '/' :: a2 :: b2 :: d2 :: '>' :: post) = true)
    (hclose2 : noCloseIn post [] = true) :
    extract_inner ⟨pre ++ ('<' :: a :: b :: d :: (attrs ++ '>'
        :: (inner ++ ('<' :: '/' :: a2 :: b2 :: d2 :: '>' :: post))))⟩
      = ⟨pyStrip ((pre ++ inner) ++ post)⟩ := by
  have hO : scanO (pre ++ ('<' :: a :: b :: d :: (attrs ++ '>'
      :: (inner ++ ('<' :: '/' :: a2 :: b2 :: d2 :: '>' :: post))))) false
      = pre ++ (inner ++ ('<' :: '/' :: a2 :: b2 :: d2 :: '>' :: post)) := by
    rw [scanO_append _ _ hpre, scanO_open a b d attrs _ ha hb hd hattrs,
      scanO_id _ hrest]
  have hC : scanC (pre ++ (inner ++ ('<' :: '/' :: a2 :: b2 :: d2 :: '>' :: post)))
      = (pre ++ inner) ++ post := by
    rw [show pre ++ (inner ++ ('<' :: '/' :: a2 :: b2 :: d2 :: '>' :: post))
        = (pre ++ inner) ++ ('<' :: '/' :: a2 :: b2 :: d2 :: '>' :: post) from
        (List.append_assoc pre inner _).symm,
      scanC_append _ _ hclose1, scanC_close a2 b2 d2 post ha2 hb2 hd2,
      scanC_id _ hclose2]
  show (⟨pyStrip (scanC (scanO (pre ++ ('<' :: a :: b :: d :: (attrs ++ '>'
      :: (inner ++ ('<' :: '/' :: a2 :: b2 :: d2 :: '>' :: post))))) false))⟩ : String) = _
  rw [hO, hC]

/-- Witness for C5 on a concrete two-line SVG file. -/
theorem claim5_witness :
    extract_inner ("\n<svg width=\"10\"><path d=\"M0 0h10\"/></svg>\n")
      = "<path d=\"M0 0h10\"/>" :=
  (claim5_theorem ("\n".toList) ((" width=\"10\"").toList)
      (("<path d=\"M0 0h10\"/>").toList) ("\n".toList)
      's' 'v' 'g' 's' 'v' 'g'
      (Or.inl rfl) (Or.inl rfl) (Or.inl rfl) (Or.inl rfl) (Or.inl rfl) (Or.inl rfl)
      (by decide) (by decide) (by decide) (by decide) (by decide)).trans
    (by decide)

/-- No position of `pre` (continued by `cont`) starts a match of the
`viewBox` pattern. -/
def noVbIn : List Char → List Char → Bool
  | [], _ => true
  | c :: r, cont => (vbAt (c :: (r ++ cont))).isNone && noVbIn r cont

/-- A position where the `viewBox` pattern does not match is skipped. -/
theorem findVb_step (c : Char) (l : List Char) (h : vbAt (c :: l) = none) :
    findVb (c :: l) = findVb l := by
  simp [findVb, h]

/-- The search skips a match-free prefix. -/
theorem findVb_append (pre cont : List Char) (h : noVbIn pre cont = true) :
    findVb (pre ++ cont) = findVb cont := by
  induction pre with
  | nil => simp
  | cons c r ih =>
    simp only [noVbIn, Bool.and_eq_true, Option.isNone_iff_eq_none] at h
    rw [List.cons_append, findVb_step _ _ h.1, ih h.2]

/-- The search fails on text with no `viewBox` pattern match. -/
theorem findVb_none (l : List Char) (h : noVbIn l [] = true) : findVb l = none := by
  have happ := findVb_append l [] h
  simpa [findVb] using happ

/-- The greedy run `[^"']+` before a closing quote captures exactly the
quote-free value. -/
theorem takeWhile_val (val rest : List Char) (q2 : Char)
    (hval : ∀ c ∈ val, quoteChar c = false) (hq2 : quoteChar q2 = true) :
    (val ++ q2 :: rest).takeWhile (fun c => !quoteChar c) = val ∧
    (val ++ q2 :: rest).dropWhile (fun c => !quoteChar c) = q2 :: rest := by
  induction val with
  | nil => simp [List.takeWhile_cons, List.dropWhile_cons, hq2]
  | cons c t ih =>
    have hc := hval c (List.mem_cons_self c t)
    have ht : ∀ x ∈ t, quoteChar x = false := fun x hx => hval x (List.mem_cons_of_mem c hx)
    obtain ⟨ih1, ih2⟩ := ih ht
    simp [List.takeWhile_cons, List.dropWhile_cons, hc, ih1, ih2]

/-- At an occurrence `viewBox=` + quote + value + quote, the pattern
matches and captures the value. -/
theorem vbAt_capture (q1 q2 : Char) (val rest : List Char)
    (hq1 : quoteChar q1 = true) (hq2 : quoteChar q2 = true)
    (hne : val ≠ []) (hval : ∀ c ∈ val, quoteChar c = false) :
    vbAt ('v' :: 'i' :: 'e' :: 'w' :: 'B' :: 'o' :: 'x' :: '=' :: q1 :: (val ++ q2 :: rest))
      = some val := by
  obtain ⟨h1, h2⟩ := takeWhile_val val rest q2 hval hq2
  cases val with
  | nil => exact absurd rfl hne
  | cons c t =>
    simp only [List.cons_append] at h1 h2
    simp [vbAt, hq1, takeVal, h1, h2]

/-- Claim C10: the coordinate-box extraction is case-sensitive and
positional.  (1) `get_viewbox` returns the value of the first
occurrence of an attribute spelled exactly `viewBox` anywhere in the
raw text — the prefix before it need not be the root element, it must
only contain no earlier match.  (2) A file with no exact `viewBox`
pattern match (in particular one spelling it `viewbox`) yields absent.
(3) By contrast the tag stripping of `extract_inner` is
case-insensitive: an upper-case `<SVG …></SVG>` wrapper is stripped. -/
theorem claim10_theorem :
    (∀ (pre val rest : List Char) (q1 q2 : Char),
        quoteChar q1 = true → quoteChar q2 = true → val ≠ [] →
        (∀ c ∈ val, quoteChar c = false) →
        noVbIn pre ('v' :: 'i' :: 'e' :: 'w' :: 'B' :: 'o' :: 'x' :: '='
          :: q1 :: (val ++ q2 :: rest)) = true →
        get_viewbox ⟨pre ++ ('v' :: 'i' :: 'e' :: 'w' :: 'B' :: 'o' :: 'x' :: '='
          :: q1 :: (val ++ q2 :: rest))⟩ = some (⟨val⟩ : String)) ∧
    (∀ text : String, noVbIn text.toList [] = true → get_viewbox text = none) ∧
    extract_inner ("a<SVG X=\"1\">b</SVG>c") = "abc" := by
  refine ⟨?_, ?_, by decide⟩
  · intro pre val rest q1 q2 hq1 hq2 hne hval hpre
    unfold get_viewbox
    show (findVb (pre ++ ('v' :: 'i' :: 'e' :: 'w' :: 'B' :: 'o' :: 'x' :: '='
      :: q1 :: (val ++ q2 :: rest)))).map _ = _
    rw [findVb_append _ _ hpre]
    have hfound : findVb ('v' :: 'i' :: 'e' :: 'w' :: 'B' :: 'o' :: 'x' :: '='
        :: q1 :: (val ++ q2 :: rest)) = some val := by
      simp [findVb, vbAt_capture q1 q2 val rest hq1 hq2 hne hval]
    rw [hfound]
    rfl
  · intro text h
    unfold get_viewbox
    rw [findVb_none _ h]
    rfl

/-- Witness for C10: the first of two `viewBox` occurrences wins (and
it need not sit on the root element); a lower-case `viewbox` is not
found. -/
theorem claim10_witness :
    get_viewbox ("<g viewBox=\"0 0 9 9\"/><svg viewBox=\"1 2 3 4\">") = some ("0 0 9 9") ∧
    get_viewbox ("<svg viewbox=\"0 0 5 5\"/>") = none :=
  ⟨claim10_theorem.1 (("<g ").toList) (("0 0 9 9").toList)
      (("\"/><svg viewBox=\"1 2 3 4\">").toList) '"' '"'
      (by decide) (by decide) (by decide) (by decide) (by decide),
   claim10_theorem.2.1 ("<svg viewbox=\"0 0 5 5\"/>") (by decide)⟩

/-- Spec-side structure: the root element opener, sized to the canvas. -/
def rootOpen (w h : ℤ) : String :=
  "<svg xmlns=\"http://www.w3.org/2000/svg\" width=\"" ++ itoa w
    ++ "\" height=\"" ++ itoa h ++ "\">\n"

/-- Spec-side structure: one named reusable-symbol element wrapping one
extracted inner-content string under its own coordinate-box (`sep` is
the alignment whitespace between the attributes). -/
def symbolElem (sym sep vb inner : String) : String :=
  "    <symbol id=\"" ++ sym ++ "\"" ++ sep ++ "viewBox=\"" ++ vb ++ "\">\n"
    ++ inner ++ "\n    </symbol>\n"

/-- Spec-side structure: one placement reference naming a symbol
identifier with a position and size. -/
def useElem (sym sep : String) (x y w h : ℤ) : String :=
  "  <use href=\"#" ++ sym ++ "\"" ++ sep ++ "x=\"" ++ itoa x ++ "\" y=\"" ++ itoa y
    ++ "\" width=\"" ++ itoa w ++ "\" height=\"" ++ itoa h ++ "\"/>\n"

/-- Spec-side assembly of the output document, following the words of
the spec: a root element sized to the canvas, a definitions block
holding exactly the two named symbols `matrix` and `telegram`, then
exactly two placement references naming those identifiers with the
computed geometry. -/
def composeSpec (w h : ℤ) (base_vb badge_vb base_inner badge_inner : String)
    (mx my mw mh bx byy bw bh : ℤ) : String :=
  rootOpen w h
    ++ "  <defs>\n"
    ++ symbolElem ("matrix") ("  ") base_vb base_inner
    ++ symbolElem ("telegram") (" ") badge_vb badge_inner
    ++ "  </defs>\n"
    ++ useElem ("matrix") ("   ") mx my mw mh
    ++ useElem ("telegram") (" ") bx byy bw bh
    ++ "</svg>\n"

/-- Refinement: the text written by the code equals the spec-side
structural assembly, for all inputs. -/
theorem composeDoc_eq_spec (w h mx my mw mh bx byy bw bh : ℤ)
    (base_vb badge_vb base_inner badge_inner : String) :
    composeDoc w h mx my mw mh bx byy bw bh base_vb badge_vb base_inner badge_inner
      = composeSpec w h base_vb badge_vb base_inner badge_inner
          mx my mw mh bx byy bw bh := by
  apply String.ext
  simp only [composeDoc, composeSpec, rootOpen, symbolElem, useElem,
    String.data_append, List.append_assoc]
  rfl

/-- Claim C8: for every pair of readable inputs the composed output is
exactly a root element sized to the canvas, a definitions block with
exactly the two fixed-identifier symbols wrapping the two extracted
inner contents under their coordinate-boxes, and exactly two placement
references carrying the computed geometry; it is written to the
destination (whose prior content is never consulted — the model takes
the written value from the run alone, i.e. any existing file is
overwritten). -/
theorem claim8_theorem (fs : String → Option String) (a : Args) (bt dt : String)
    (ink : Bool) (hb : fs a.base = some bt) (hd : fs a.badge = some dt) :
    (mainRun fs a ink).written = some (composeSpec a.main_size.1 a.main_size.2
      (base_vb_used a bt) (badge_vb_used a dt) (extract_inner bt) (extract_inner dt)
      (main_x_calc a.main_size.1 a.main_scale) (main_x_calc a.main_size.2 a.main_scale)
      (main_w_calc a.main_size.1 a.main_scale) (main_w_calc a.main_size.2 a.main_scale)
      (badge_pos_calc a.main_size.1 a.main_size.2 a.badge_size.1 a.badge_size.2
        a.badge_offset).1
      (badge_pos_calc a.main_size.1 a.main_size.2 a.badge_size.1 a.badge_size.2
        a.badge_offset).2
      a.badge_size.1 a.badge_size.2) := by
  simp only [mainRun, hb, hd]
  cases a.export_png <;> cases ink <;>
    exact congrArg some (composeDoc_eq_spec _ _ _ _ _ _ _ _ _ _ _ _ _ _)

set_option maxRecDepth 4000

/-- Witness for C8: a concrete invocation at the default geometry; the
full output document, byte for byte. -/
theorem claim8_witness :
    (mainRun
        (fun p => if p = "matrix.svg" then some ("<svg viewBox=\"0 0 8 8\"><a/></svg>")
          else if p = "telegram.svg" then some ("<svg><b/></svg>") else none)
        ⟨"matrix.svg", "telegram.svg", "combined.svg", (24, 24), (6, 6), none, 1, false⟩
        false).written
      = some ("<svg xmlns=\"http://www.w3.org/2000/svg\" width=\"24\" height=\"24\">\n  <defs>\n    <symbol id=\"matrix\"  viewBox=\"0 0 8 8\">\n<a/>\n    </symbol>\n    <symbol id=\"telegram\" viewBox=\"0 0 6 6\">\n<b/>\n    </symbol>\n  </defs>\n  <use href=\"#matrix\"   x=\"0\" y=\"0\" width=\"24\" height=\"24\"/>\n  <use href=\"#telegram\" x=\"18\" y=\"18\" width=\"6\" height=\"6\"/>\n</svg>\n") := by
  have h := claim8_theorem
    (fun p => if p = "matrix.svg" then some ("<svg viewBox=\"0 0 8 8\"><a/></svg>")
      else if p = "telegram.svg" then some ("<svg><b/></svg>") else none)
    ⟨"matrix.svg", "telegram.svg", "combined.svg", (24, 24), (6, 6), none, 1, false⟩
    ("<svg viewBox=\"0 0 8 8\"><a/></svg>") ("<svg><b/></svg>") false
    (by decide) (by decide)
  refine h.trans (congrArg some ?_)
  show composeSpec 24 24 ("0 0 8 8") ("0 0 6 6") ("<a/>") ("<b/>")
      (main_x_calc 24 1) (main_x_calc 24 1) (main_w_calc 24 1) (main_w_calc 24 1)
      18 18 6 6 = _
  rw [main_w_24_one, main_x_24_one]
  decide

end BuildSvg
